import Mathlib

/-!
Verification of the workflow-execution and streaming-delivery engine of the
RAG service: the Redis publisher / durable stream log (src/src/infra/redis_pubsub.py,
src/src/api/routes/stream.py), the streaming driver (src/src/api/routes/chat.py),
the LangGraph workflow (src/src/agent/graph.py) and the tool capabilities
(src/src/tools/retrieval.py, src/src/tools/project_search.py).

Python values are embedded shallowly: floats that are only carried, never
computed with (timestamps, durations), are modelled as `Int`; fallible code
returns `Except`/`Option`; the Redis client and the upstream HTTP services are
modelled as explicit state / scripted outcomes.
-/

namespace RagDemo

/-- JSON values: the possible outputs of `json.dumps`. -/
inductive JVal where
  | str : String → JVal
  | num : Int → JVal
  | bool : Bool → JVal
  | null : JVal
  | arr : List JVal → JVal
  | obj : List (String × JVal) → JVal

/-- Python runtime values that can appear in a `StreamMessage.data` payload.
`baseMessage` is a LangChain `BaseMessage` (carrying its type tag and content),
`obj` any other non-JSON-serializable object (carrying its `str()` rendering),
and `badKeyDict` a dict whose keys are not strings/numbers, on which
`json.dumps` raises `TypeError` regardless of the `default` hook. -/
inductive PyVal where
  | str : String → PyVal
  | int : Int → PyVal
  | bool : Bool → PyVal
  | none : PyVal
  | list : List PyVal → PyVal
  | dict : List (String × PyVal) → PyVal
  | baseMessage (msgType content : String) : PyVal
  | obj (strRendering : String) : PyVal
  | badKeyDict : PyVal

mutual

/-- `json.dumps(value, default=_default)` on one payload value
(src/src/infra/redis_pubsub.py, `StreamMessage.to_json._default`):
`some` JSON on success, `Option.none` when serialization raises.
LangChain messages are converted with `message_to_dict` (a `{"type", "data"}`
wrapper), every other foreign object is converted with `str`. -/
def jsonDefault : PyVal → Option JVal
  | .str s => some (.str s)
  | .int n => some (.num n)
  | .bool b => some (.bool b)
  | .none => some .null
  | .list xs => (jsonDefaultList xs).map JVal.arr
  | .dict kvs => (jsonDefaultPairs kvs).map JVal.obj
  | .baseMessage t c =>
      some (.obj [("type", .str t), ("data", .obj [("content", .str c)])])
  | .obj r => some (.str r)
  | .badKeyDict => Option.none

/-- Serialization of a Python list, element by element. -/
def jsonDefaultList : List PyVal → Option (List JVal)
  | [] => some []
  | v :: vs => do
      let j ← jsonDefault v
      let js ← jsonDefaultList vs
      pure (j :: js)

/-- Serialization of a string-keyed Python dict, value by value. -/
def jsonDefaultPairs : List (String × PyVal) → Option (List (String × JVal))
  | [] => some []
  | kv :: kvs => do
      let j ← jsonDefault kv.2
      let js ← jsonDefaultPairs kvs
      pure ((kv.1, j) :: js)

end

/-- The `StreamMessage` dataclass (src/src/infra/redis_pubsub.py). The float
fields `timestamp` and `execution_time_ms` are opaque carried values, modelled
as integers. -/
structure StreamMessage where
  thread_id : String
  node_name : String
  message_type : String
  status : String
  timestamp : Int
  data : PyVal
  execution_time_ms : Option Int

/-- JSON view of an optional number (Python `None` serializes to `null`). -/
def optIntJson : Option Int → JVal
  | Option.none => JVal.null
  | some n => JVal.num n

/-- `StreamMessage.to_json` (src/src/infra/redis_pubsub.py): dump
`self.__dict__` with the `_default` hook; if serialization still raises, return
the fallback object that keeps `thread_id`, `node_name` and `message_type`, sets
`status` to `"error"` and records the failure. The exception text inside the
fallback's `error` field and the fresh `time.time()` timestamp are abstracted as
a fixed message and the `now` argument. Only the `data` field can fail: all
other fields are strings or numbers. -/
def StreamMessage.toJson (m : StreamMessage) (now : Int) : JVal :=
  match jsonDefault m.data with
  | some d =>
      .obj [("thread_id", .str m.thread_id), ("node_name", .str m.node_name),
            ("message_type", .str m.message_type), ("status", .str m.status),
            ("timestamp", .num m.timestamp), ("data", d),
            ("execution_time_ms", optIntJson m.execution_time_ms)]
  | Option.none =>
      .obj [("thread_id", .str m.thread_id), ("node_name", .str m.node_name),
            ("message_type", .str m.message_type), ("status", .str "error"),
            ("error", .str "Serialization failed"), ("timestamp", .num now)]

/-- Field access on a serialized JSON object. -/
def JVal.field (j : JVal) (k : String) : Option JVal :=
  match j with
  | .obj kvs => kvs.lookup k
  | _ => Option.none

/-- Key lookup inside a dict payload value. -/
def PyVal.look (v : PyVal) (k : String) : Option PyVal :=
  match v with
  | .dict kvs => kvs.lookup k
  | _ => Option.none

/-- The subset of `Settings` (src/src/config/settings.py) that the verified
code paths read. Blank environment variables load as `Option.none` (Python
treats the empty string as falsy in every configuration guard below). -/
structure Settings where
  redis_stream_enabled : Bool
  stream_ttl_seconds : Nat
  stream_max_length : Nat
  workflow_timeout_seconds : Nat
  project_search_enabled : Bool
  project_search_api_url : Option String
  project_search_api_username : Option String
  project_search_api_password : Option String
  rerank_enabled : Bool
  retriever_top_k : Nat

/-! ### Event Publisher (src/src/infra/redis_pubsub.py) -/

/-- `RedisPublisher._channel`: `workflow:{thread_id}:{node_name}:{message_type}`. -/
def channelName (thread_id node_name message_type : String) : String :=
  "workflow:" ++ thread_id ++ ":" ++ node_name ++ ":" ++ message_type

/-- `RedisPublisher.publish_node_output`: builds the `StreamMessage` for a node
event (`now` models `time.time()`). -/
def publishNodeOutput (thread_id node_name : String) (data : PyVal)
    (status message_type : String) (execution_time_ms : Option Int)
    (now : Int) : StreamMessage :=
  ⟨thread_id, node_name, message_type, status, now, data, execution_time_ms⟩

/-- `RedisPublisher.publish_workflow_complete`: node `"workflow"`, type
`"complete"`, status `"completed"`. -/
def publishWorkflowComplete (thread_id : String) (data : PyVal)
    (execution_time_ms : Option Int) (now : Int) : StreamMessage :=
  ⟨thread_id, "workflow", "complete", "completed", now, data, execution_time_ms⟩

/-- `RedisPublisher.publish_workflow_error`: node `"workflow"`, type `"error"`,
status `"failed"`, payload `{"error": error, **extra}`. -/
def publishWorkflowError (thread_id error : String)
    (extra : List (String × PyVal)) (now : Int) : StreamMessage :=
  ⟨thread_id, "workflow", "error", "failed", now,
    PyVal.dict (("error", PyVal.str error) :: extra), Option.none⟩

/-! ### Durable per-thread log (Redis stream `workflow:execution:{thread_id}`) -/

/-- One persisted entry of the durable log: the auto-assigned stream id plus the
event's fields. Real Redis ids (`"1705740000000-0"`) are modelled as `Nat`, with
`0` standing for the minimal id `"0-0"`; every stored entry has a positive id. -/
structure StreamEntry where
  id : Nat
  msg : StreamMessage

/-- The durable log at one key: `nextId` models Redis's strictly increasing
auto-id counter, `entries` is the retained log oldest first, `ttl` the key's
pending expiry. -/
structure ThreadLog where
  nextId : Nat
  entries : List StreamEntry
  ttl : Option Nat

/-- Redis `XADD key * fields` with auto id: appends and returns the new id. -/
def xadd (log : ThreadLog) (m : StreamMessage) : ThreadLog × Nat :=
  ({ log with nextId := log.nextId + 1,
              entries := log.entries ++ [⟨log.nextId, m⟩] }, log.nextId)

/-- Redis `XTRIM key MAXLEN maxlen`: keeps only the most recent `maxlen` entries. -/
def xtrim (log : ThreadLog) (maxlen : Nat) : ThreadLog :=
  { log with entries := log.entries.drop (log.entries.length - maxlen) }

/-- Redis `EXPIRE key seconds`: (re)sets the retention TTL of the key. -/
def expire (log : ThreadLog) (seconds : Nat) : ThreadLog :=
  { log with ttl := some seconds }

/-- Per-thread Redis state seen by the publisher: the durable log under
`workflow:execution:{thread_id}` plus the pub/sub frames broadcast to live
subscribers (channel, JSON payload). -/
structure RedisThreadState where
  log : ThreadLog
  broadcasts : List (String × JVal)

/-- Modelled from the spec: `RedisPublisher._publish_to_stream` is code of this
repository missing from src/ — only its unit tests
(src/tests/unit_tests/test_redis_stream.py) and its reader
(src/src/api/routes/stream.py) are present; the revision of redis_pubsub.py
under src/ predates the durable log. Per the spec (§4.4 `publish`) and the
tests: when `settings.redis_stream_enabled`, XADD the message's fields to
`workflow:execution:{thread_id}` (Redis assigns the next id), XTRIM the key to
`settings.stream_max_length`, EXPIRE it to `settings.stream_ttl_seconds`, and
return the assigned id; when disabled (or on a Redis error, which is logged,
never raised) return `Option.none`. -/
def publishToStream (cfg : Settings) (log : ThreadLog) (m : StreamMessage) :
    ThreadLog × Option Nat :=
  if cfg.redis_stream_enabled then
    let r := xadd log m
    (expire (xtrim r.1 cfg.stream_max_length) cfg.stream_ttl_seconds, some r.2)
  else (log, Option.none)

/-- `RedisPublisher.publish_message`: the durable-log half is modelled from the
spec as `publishToStream` (see there); the broadcast half is the src revision
(src/src/infra/redis_pubsub.py lines 143-166): serialize with `to_json` and
PUBLISH on `workflow:{thread_id}:{node_name}:{message_type}`. The two halves
are independent; failure of either is logged and never raised. -/
def publishMessage (cfg : Settings) (st : RedisThreadState) (m : StreamMessage)
    (now : Int) : RedisThreadState :=
  { log := (publishToStream cfg st.log m).1,
    broadcasts := st.broadcasts ++
      [(channelName m.thread_id m.node_name m.message_type, m.toJson now)] }

/-! ### Subscription entrypoint (src/src/api/routes/stream.py) -/

/-- One JSON text frame sent over the websocket: the entry's stream id, the
`is_history` mark (`_send_stream_history` adds `is_history: true`; frames from
the live loop carry no such mark, modelled as `false`), and the entry's fields. -/
structure WsFrame where
  message_id : Nat
  is_history : Bool
  msg : StreamMessage

/-- `_send_stream_history`: XRANGE the whole retained log, send every entry
oldest to newest marked as history, and return the last sent id (`0` models the
initial `"0-0"` when the log is empty). -/
def sendStreamHistory (entries : List StreamEntry) : List WsFrame × Nat :=
  (entries.map (fun e => ⟨e.id, true, e.msg⟩),
   match entries.getLast? with
   | some e => e.id
   | Option.none => 0)

/-- `_stream_new_messages`: the blocking XREAD loop from `lastId`. Over the
final contents `entries` of the log it delivers, in order, exactly the entries
with id strictly greater than `lastId` (Redis XREAD semantics), unmarked. -/
def streamNewMessages (entries : List StreamEntry) (lastId : Nat) : List WsFrame :=
  (entries.filter (fun e => lastId < e.id)).map (fun e => ⟨e.id, false, e.msg⟩)

/-- `websocket_stream` in Stream mode (src/src/api/routes/stream.py lines
100-153): with a `last_id` query parameter, skip replay and resume the blocking
read from that offset; otherwise replay the log retained at connect time
(`initial`) as history and then block-read from the last replayed id. `grown`
is what the log gains while the subscription lives, so the final log is
`initial ++ grown`. -/
def websocketStream (initial grown : List StreamEntry) :
    Option Nat → List WsFrame
  | some lastId => streamNewMessages (initial ++ grown) lastId
  | Option.none =>
      (sendStreamHistory initial).1 ++
        streamNewMessages (initial ++ grown) (sendStreamHistory initial).2

/-! ### Streaming driver (src/src/api/routes/chat.py, `_stream_workflow_to_redis`) -/

/-- One `(stream_mode, chunk)` pair yielded by `graph.astream(...,
stream_mode=["updates", "messages", "custom"])`. For `messages` mode the token
text extracted from the message chunk is carried directly (the extraction of
`.content` from the LangChain chunk is outside the embedding), together with
the normalized chunk and metadata payloads; `updates` carries the per-node
state deltas; `custom` an arbitrary payload. -/
inductive StreamChunk where
  | messages (node tokenContent : String) (chunk metadata : PyVal)
  | updates (deltas : List (String × PyVal))
  | custom (data : PyVal)

/-- The messages published for one stream chunk (`_process_stream` body):
`messages`-mode tokens are forwarded only for the two LLM nodes and only when
non-empty, as `token`/`streaming` events; `updates`-mode deltas become
`output`/`completed` events stamped with the elapsed time; `custom` payloads
are forwarded on the fixed `custom` node. -/
def chunkEvents (thread_id : String) (now elapsed : Int) :
    StreamChunk → List StreamMessage
  | .messages node tok chunk metadata =>
      if (node = "query_or_respond" ∨ node = "generate") ∧ tok ≠ "" then
        [publishNodeOutput thread_id node
          (PyVal.dict [("token", PyVal.str tok), ("chunk", chunk),
                       ("metadata", metadata)])
          "streaming" "token" Option.none now]
      else []
  | .updates deltas =>
      deltas.map (fun nd =>
        publishNodeOutput thread_id nd.1 nd.2 "completed" "output"
          (some elapsed) now)
  | .custom d => [⟨thread_id, "custom", "custom", "info", now, d, Option.none⟩]

/-- Events published for a list of processed chunks, each paired with the
elapsed time observed when it was handled. -/
def turnEvents (thread_id : String) (now : Int) :
    List (StreamChunk × Int) → List StreamMessage
  | [] => []
  | ce :: rest => chunkEvents thread_id now ce.2 ce.1 ++ turnEvents thread_id now rest

/-- The `node_times` statistics dict accumulated by the driver (later
assignments overwrite earlier ones; this assoc list keeps all of them, which
the verified claims never distinguish). -/
def nodeTimes : List (StreamChunk × Int) → List (String × PyVal)
  | [] => []
  | (StreamChunk.updates deltas, elapsed) :: rest =>
      deltas.map (fun nd => (nd.1, PyVal.int elapsed)) ++ nodeTimes rest
  | _ :: rest => nodeTimes rest

/-- How one streaming turn ends: the workflow stream was consumed to the end,
or `asyncio.wait_for` was interrupted after `processed` chunks by caller
cancellation, by the timeout budget, or by a workflow exception. -/
inductive TurnOutcome where
  | completed
  | cancelled (processed : Nat)
  | timedOut (processed : Nat)
  | failed (processed : Nat) (err : String)

/-- `_stream_workflow_to_redis` (src/src/api/routes/chat.py lines 124-265): the
full sequence of `StreamMessage`s published for one streaming turn. On normal
completion every chunk's events are followed by exactly one
`workflow:complete`; `asyncio.CancelledError` is swallowed silently;
`asyncio.TimeoutError` publishes one `workflow:error` with
`error_type = "timeout"` and the configured budget; any other exception
publishes one `workflow:error` with `error_type = "execution_error"`. -/
def streamWorkflowToRedis (cfg : Settings) (thread_id : String)
    (now totalMs : Int) (chunks : List (StreamChunk × Int)) :
    TurnOutcome → List StreamMessage
  | .completed =>
      turnEvents thread_id now chunks ++
        [publishWorkflowComplete thread_id
          (PyVal.dict [("node_times", PyVal.dict (nodeTimes chunks)),
                       ("total_ms", PyVal.int totalMs)])
          (some totalMs) now]
  | .cancelled k => turnEvents thread_id now (chunks.take k)
  | .timedOut k =>
      turnEvents thread_id now (chunks.take k) ++
        [publishWorkflowError thread_id
          ("Workflow execution exceeded " ++
            toString cfg.workflow_timeout_seconds ++ "s timeout")
          [("error_type", PyVal.str "timeout"),
           ("timeout_seconds", PyVal.int cfg.workflow_timeout_seconds)] now]
  | .failed k e =>
      turnEvents thread_id now (chunks.take k) ++
        [publishWorkflowError thread_id e
          [("error_type", PyVal.str "execution_error")] now]

/-- A terminal event of a turn: a `complete` or `error` message. -/
def StreamMessage.isTerminal (m : StreamMessage) : Bool :=
  m.message_type = "complete" || m.message_type = "error"

/-! ### Workflow State Machine (src/src/agent/graph.py) -/

/-- `SYSTEM_PROMPT.format(time=...)` (src/src/agent/prompts.py): the system
instruction with the current timestamp appended (apostrophes appear as x27
escapes). -/
def systemPromptFormat (time : String) : String :=
  "You are a helpful AI assistant with access to:\n1. PDF document knowledge base (retrieve_context tool)\n2. Project database (search_projects tool)\n3. Web search for real-time information (web_search tool - if enabled)\n4. User-uploaded documents (provided directly in the message)\n\nYou are primarily an investment & research assistant, but you can also help with simple everyday questions.\n\nCRITICAL RULES:\n- When user provides uploaded documents in <uploaded_documents> section, use them as PRIMARY source\n- For company/project questions, use BOTH search_projects and retrieve_context tools\n- For current events, real-time data, or information beyond your knowledge cutoff, use web_search\n- Do not guess or fabricate information; rely on retrieved context\n- Keep answers concise and cite the key points from all available sources\n\nINTERACTION / ACTION COMMANDS:\n- If the user says \"重新搜一次\", \"再搜一次\", \"重搜\", \"retry\", or similar, treat it as an instruction to rerun the previous query.\n  - If a previous user question exists, rerun retrieval and (if enabled) web_search for that question.\n  - If there is no previous question, ask a brief clarification: \"你想让我重新搜索哪个问题？\"\n\nAvailable tools:\n- search_projects(query: str): Search project database for company/project info (supports single or multiple keywords in one call)\n- retrieve_context(query: str): Search PDF knowledge base for detailed information\n- web_search(query: str): Search the web for real-time information, current events, and recent data (if enabled)\n\nUPLOADED DOCUMENTS HANDLING:\n- If user provides <uploaded_documents>, read and understand them first\n- Use document content to answer user\x27s question directly\n- Cite specific sections or pages when referencing document content\n- If question is about the document, prioritize document content over general knowledge\n- If document doesn\x27t contain relevant info, acknowledge and use other sources\n\nTOOL USAGE RULES:\n1. For project status/metadata questions → Use search_projects FIRST\n   Examples: \"项目受理状态\", \"是否立项\", \"融资轮次\", \"项目ID\"\n   Note: search_projects supports multiple keywords in a single call - no need to call multiple times\n2. For general company/project information → Use retrieve_context FIRST\n   Examples: \"公司介绍\", \"产品特点\", \"技术方案\", \"团队背景\"\n3. Always check uploaded documents first if provided\n4. Use both tools only if one source is insufficient\n\nWhen a user asks a question:\n1. Check if <uploaded_documents> section exists\n2. If yes, read and use them as primary source\n3. Identify if it\x27s about a company/project\n4. Call appropriate tools to supplement document content\n5. Combine all sources for comprehensive answer\n\nCurrent time: " ++ time

/-- `GENERATE_ANSWER_PROMPT.format(question=..., documents=...)`
(src/src/agent/prompts.py). -/
def generateAnswerPromptFormat (question documents : String) : String :=
  "You are an assistant for question-answering tasks related to company/project documents.\n\nUse the following retrieved documents to answer the question as completely and accurately as possible.\n\nIMAGE HANDLING (only when clearly relevant):\n1. If the retrieved context clearly includes image references that are directly relevant to your answer, include them inline using Markdown: ![alt_text](/documents/images/[filename_or_hash].jpg)\n2. Do NOT mention images if none are referenced in the context.\n3. Do NOT add meta commentary about whether images exist; just answer.\n\nFORMATTING GUIDELINES:\n- Use standard Markdown format for your output.\n- Use code blocks (```) for code snippets if present.\n- Use proper Markdown sections (##, ###) to organize content.\n- Group related text and images together for better readability.\n\nPROJECT STATUS REFERENCE:\n- \x27received\x27: BP已接收\n- \x27accepted\x27: 项目已受理\n- \x27rejected\x27: 项目不受理\n- \x27approved\x27: 已立项\n- \x27invested\x27: 已投资\n- \x27post_investment\x27: 投后管理阶段\n\nIf the documents and tools don\x27t contain enough information, say so briefly and suggest what to search/provide next.\nWhen citing sources, reference the document name and key points.\n\nQuestion: " ++ question ++ "\n\nRetrieved documents:\n" ++ documents ++ "\n\nAnswer:"

/-- A tool request emitted by the model: name plus (opaque) arguments. -/
structure ToolCall where
  name : String
  args : String
deriving DecidableEq

/-- Conversation messages, tagged by role (LangChain `HumanMessage` /
`AIMessage` with its `tool_calls` / `ToolMessage` with the invoking tool's name
/ `SystemMessage`). -/
inductive Msg where
  | human (content : String)
  | ai (content : String) (tool_calls : List ToolCall)
  | tool (name content : String)
  | system (content : String)
deriving DecidableEq

/-- Whether a message is a tool-result message. -/
def Msg.isTool : Msg → Bool
  | .tool _ _ => true
  | _ => false

/-- `_prepend_system_prompt`: system instruction (with the current time) in
front of the history. -/
def prependSystemPrompt (now : String) (messages : List Msg) : List Msg :=
  Msg.system (systemPromptFormat now) :: messages

/-- The `for message in reversed(messages)` loop of `_extract_user_question`:
first human message of the reversed list. -/
def extractUserQuestionGo : List Msg → String
  | [] => ""
  | Msg.human c :: _ => c
  | _ :: rest => extractUserQuestionGo rest

/-- `_extract_user_question`: content of the most recent human message, else "". -/
def extractUserQuestion (messages : List Msg) : String :=
  extractUserQuestionGo messages.reverse

/-- The `for message in reversed(messages)` loop of
`_extract_retrieved_context`: first tool message of the reversed list. -/
def extractRetrievedContextGo : List Msg → String
  | [] => ""
  | Msg.tool _ c :: _ => c
  | _ :: rest => extractRetrievedContextGo rest

/-- `_extract_retrieved_context`: content of the most recent (latest) tool
message, else "". -/
def extractRetrievedContext (messages : List Msg) : String :=
  extractRetrievedContextGo messages.reverse

/-- Python `x or default` on strings: the default replaces the empty string. -/
def orDefault (s d : String) : String :=
  if s = "" then d else s

/-- The tools bound to the model in `query_or_respond` (src/src/agent/graph.py
lines 96-103): `retrieve_context`, plus `search_projects` when
`settings.project_search_enabled`. No other tool is ever appended. -/
def queryOrRespondTools (cfg : Settings) : List String :=
  ["retrieve_context"] ++
    (if cfg.project_search_enabled then ["search_projects"] else [])

/-- One call issued to the Language-Model Gateway: the input messages and the
names of the tools bound for the call. -/
structure ModelCall where
  input : List Msg
  bound_tools : List String
deriving DecidableEq

/-- The model call issued by `generate` (src/src/agent/graph.py lines 110-135):
a single human message holding `GENERATE_ANSWER_PROMPT` formatted with the most
recent user question and the most recent tool output, with no tools bound
(`llm.ainvoke`, no `bind_tools`). -/
def generateModelCall (messages : List Msg) : ModelCall :=
  { input := [Msg.human (generateAnswerPromptFormat
      (orDefault (extractUserQuestion messages) "No question provided.")
      (orDefault (extractRetrievedContext messages)
        "No supporting documents were retrieved."))],
    bound_tools := [] }

/-- The C5 claim's GENERATING model input, stated in the spec's words for
comparison: "invoke the Language-Model Gateway once more over history extended
with all tool results (no tools bound this time)". -/
def generateModelCallSpec (messages : List Msg) : ModelCall :=
  { input := messages, bound_tools := [] }

/-- Result of one turn of the compiled graph: the final message list and the
model calls that were issued. -/
structure TurnResult where
  messages : List Msg
  modelCalls : List ModelCall
deriving DecidableEq

/-- One turn of the compiled graph (src/src/agent/graph.py lines 143-169):
entry node `query_or_respond` calls the model with the system-prefixed history
and the bound tools; `tools_condition` routes to the `tools` node when the
decision carries tool calls and to END otherwise; the `ToolNode` appends one
tool message per requested call, in request order; `generate` then issues the
second, tool-free model call and its response ends the turn. `llm` is the
Language-Model Gateway (response content and requested tool calls as a function
of the input and the bound tool names), `runTool` the tool-capability dispatch. -/
def runWorkflow (cfg : Settings)
    (llm : List Msg → List String → String × List ToolCall)
    (runTool : ToolCall → String) (now : String) (messages : List Msg) :
    TurnResult :=
  let tools := queryOrRespondTools cfg
  let decideInput := prependSystemPrompt now messages
  let resp := llm decideInput tools
  let msgs1 := messages ++ [Msg.ai resp.1 resp.2]
  if resp.2.isEmpty then
    { messages := msgs1, modelCalls := [⟨decideInput, tools⟩] }
  else
    let msgs2 := msgs1 ++ resp.2.map (fun tc => Msg.tool tc.name (runTool tc))
    let genCall := generateModelCall msgs2
    let resp2 := llm genCall.input genCall.bound_tools
    { messages := msgs2 ++ [Msg.ai resp2.1 resp2.2],
      modelCalls := [⟨decideInput, tools⟩, genCall] }

/-! ### Streaming entrypoint request and config (src/src/api/routes/chat.py) -/

/-- An uploaded document attached to a streaming chat request. -/
structure UploadedDocument where
  filename : String
  format : String
  markdown_content : String
deriving DecidableEq

/-- Modelled from the spec: the streaming request shape. The revision of
`ChatRequest` under src/src/api/schemas.py lacks the `documents` and
`enable_websearch` fields although its caller `chat_stream_endpoint`
(src/src/api/routes/chat.py lines 314-326) reads both; the spec (§6) gives the
streaming entrypoint's request shape as the base
`{thread_id, user_id?, message, chat_model?}` plus `{documents?,
enable_websearch?}`. -/
structure ChatRequest where
  thread_id : String
  user_id : Option String
  message : String
  chat_model : Option String
  documents : List UploadedDocument
  enable_websearch : Bool
deriving DecidableEq

/-- A value stored in the LangGraph `configurable` dict. -/
inductive CfgVal where
  | s (v : String)
  | b (v : Bool)
deriving DecidableEq

/-- The `configurable` dict built by `chat_stream_endpoint`
(src/src/api/routes/chat.py lines 309-315): always `thread_id`; `user_id`,
`chat_model` and `enable_websearch` only when truthy. -/
def chatStreamConfigurable (req : ChatRequest) : List (String × CfgVal) :=
  [("thread_id", CfgVal.s req.thread_id)] ++
    (match req.user_id with
     | some u => [("user_id", CfgVal.s u)]
     | Option.none => []) ++
    (match req.chat_model with
     | some m => [("chat_model", CfgVal.s m)]
     | Option.none => []) ++
    (if req.enable_websearch then [("enable_websearch", CfgVal.b true)] else [])

/-! ### Tool capability: project search (src/src/tools/project_search.py) -/

/-- One project record returned by the project management API, restricted to
the fields `_format_project` reads. `core_team` holds the member names already
extracted (the `t.get("name")` values that are present and non-empty). -/
structure Project where
  project_name : Option String
  company_name : Option String
  industry : Option String
  core_technology : Option String
  core_team : List String
deriving DecidableEq

/-- The API response of a successful search: `items` and `total`. -/
structure ProjectSearchResult where
  items : List Project
  total : Nat
deriving DecidableEq

/-- The outcome of one authorized search GET as the client observes it:
a parsed body, or the exception `raise_for_status` / the transport raises. -/
inductive HttpResponse where
  | ok (body : ProjectSearchResult)
  | status (code : Nat)
  | netError (msg : String)
deriving DecidableEq

/-- How `ProjectSearchClient.search` can fail (the exception that propagates). -/
inductive SearchError where
  | tokenAcq
  | httpStatus (code : Nat)
  | net (msg : String)
deriving DecidableEq

/-- Observable trace of one `ProjectSearchClient.search` call: its result, how
many search GETs were issued, how many token acquisitions (POSTs) were issued,
and the token cache left behind. -/
structure SearchTrace where
  outcome : Except SearchError ProjectSearchResult
  getCalls : Nat
  tokenAcquisitions : Nat
  finalTokenCache : Option String

/-- The part of `ProjectSearchClient.search` after a token is at hand
(src/src/tools/project_search.py lines 65-95): issue the GET; on a 401 clear
the cached credential, reacquire via `_get_token` (outcome `tokB`), retry the
GET exactly once (`resp2`) and let any failure of the retry propagate; re-raise
every other failure immediately. `acq` counts the token POSTs already made. -/
def searchWithToken (t : String) (acq : Nat) (tokB : Option String)
    (resp1 resp2 : HttpResponse) : SearchTrace :=
  match resp1 with
  | .ok body => ⟨.ok body, 1, acq, some t⟩
  | .status code =>
      if code = 401 then
        match tokB with
        | Option.none => ⟨.error .tokenAcq, 1, acq + 1, Option.none⟩
        | some t2 =>
            match resp2 with
            | .ok body => ⟨.ok body, 2, acq + 1, some t2⟩
            | .status c2 => ⟨.error (.httpStatus c2), 2, acq + 1, some t2⟩
            | .netError m => ⟨.error (.net m), 2, acq + 1, some t2⟩
      else ⟨.error (.httpStatus code), 1, acq, some t⟩
  | .netError m => ⟨.error (.net m), 1, acq, some t⟩

/-- `ProjectSearchClient.search` (src/src/tools/project_search.py lines 54-95)
with `_get_token` inlined: a cached token is used as is; otherwise one
acquisition (`tokA`) is attempted and its failure propagates. `resp1`/`resp2`
script the upstream's answers to the first GET and to the (at most one) retry. -/
def clientSearch (cachedToken : Option String) (tokA tokB : Option String)
    (resp1 resp2 : HttpResponse) : SearchTrace :=
  match cachedToken with
  | some t => searchWithToken t 0 tokB resp1 resp2
  | Option.none =>
      match tokA with
      | Option.none => ⟨.error .tokenAcq, 0, 1, Option.none⟩
      | some t => searchWithToken t 1 tokB resp1 resp2

/-- `_format_project`'s treatment of an optional field: Python's
`if value := project.get(key):` skips missing and empty values. -/
def optionalLine (v : Option String) (render : String → String) : List String :=
  match v with
  | some c => if c = "" then [] else [render c]
  | Option.none => []

/-- `_format_project` (src/src/tools/project_search.py lines 98-120): project
name (with `N/A` default), then company, industry, truncated technology and
team lines when present, joined with newlines. -/
def formatProject (p : Project) : String :=
  String.intercalate "\n"
    (["**" ++ p.project_name.getD "N/A" ++ "**"] ++
      optionalLine p.company_name (fun c => "- 公司：" ++ c) ++
      optionalLine p.industry (fun i => "- 行业：" ++ i) ++
      optionalLine p.core_technology (fun tech =>
        "- 核心技术：" ++
          (if 200 < tech.length then tech.take 200 ++ "..." else tech)) ++
      (if p.core_team = [] then []
       else ["- 团队：" ++ String.intercalate ", " p.core_team]))

/-- One expected outcome of `client.search` as seen by the surrounding
`try`/`except` of `_search_projects_impl`: a body, a timeout, another HTTP
error, or any other exception (token-acquisition failures included). -/
inductive UpstreamOutcome where
  | ok (body : ProjectSearchResult)
  | timeout
  | httpError (msg : String)
  | otherError (msg : String)
deriving DecidableEq

/-- `_search_projects_impl` (src/src/tools/project_search.py lines 123-168):
configuration guards first, then the search with every expected failure
humanized to a display string; it never raises and returns a plain string (the
`search_projects` tool has the default response format: text only, no
artifact). -/
def searchProjectsImpl (cfg : Settings) (outcome : UpstreamOutcome)
    (query : String) : String :=
  if ¬cfg.project_search_enabled then "项目搜索功能未启用"
  else if cfg.project_search_api_url = Option.none then "项目搜索服务未配置"
  else if cfg.project_search_api_username = Option.none ∨
          cfg.project_search_api_password = Option.none then
    "项目搜索服务认证信息未配置"
  else
    match outcome with
    | .timeout => "项目搜索服务响应超时"
    | .httpError _ => "项目搜索服务暂时不可用"
    | .otherError _ => "项目搜索失败，请稍后重试"
    | .ok body =>
        match body.items with
        | [] => "未找到与 \x27" ++ query ++ "\x27 相关的项目"
        | p :: _ =>
            "找到 " ++ toString body.total ++ " 个相关项目：\n\n" ++
              formatProject p

/-! ### Tool capability: document retrieval (src/src/tools/retrieval.py) -/

/-- A retrieved LangChain `Document`, restricted to what `_serialize_documents`
reads: the `str()` rendering of its metadata dict, its page content, and the
formatted `metadata["relevance_score"]` when a reranker attached one. -/
structure Document where
  metadata_rendering : String
  page_content : String
  relevance_score : Option String
deriving DecidableEq

/-- One document's block in `_serialize_documents`. -/
def serializeDoc (includeScores : Bool) (doc : Document) : String :=
  let content := "Source: " ++ doc.metadata_rendering ++
    "\nContent: " ++ doc.page_content
  match includeScores, doc.relevance_score with
  | true, some s => content ++ "\nRelevance Score: " ++ s
  | _, _ => content

/-- `_serialize_documents`: blocks joined with blank lines (empty input gives
the empty string). -/
def serializeDocuments (includeScores : Bool) (docs : List Document) : String :=
  String.intercalate "\n\n" (docs.map (serializeDoc includeScores))

/-- The outcome of a Python call that may raise: a value or an exception text. -/
inductive PyResult (α : Type) where
  | ok (val : α)
  | raises (msg : String)
deriving DecidableEq

/-- `retrieve_context` (src/src/tools/retrieval.py lines 71-95):
`similarity_search` (whose exceptions — missing configuration, storage errors —
propagate uncaught, `searchOutcome`), then the optional rerank
(`_rerank_documents`, whose failures are re-raised as
`RuntimeError("Rerank failed: ...")` and also propagate, `rerankOutcome`; an
empty rerank result is falsy and keeps the originals), then serialization with
scores. Returns the `content_and_artifact` pair. -/
def retrieveContext (cfg : Settings)
    (searchOutcome rerankOutcome : PyResult (List Document)) :
    Except String (String × List Document) :=
  match searchOutcome with
  | .raises e => .error e
  | .ok docs =>
      if cfg.rerank_enabled ∧ docs ≠ [] then
        match rerankOutcome with
        | .raises e => .error ("Rerank failed: " ++ e)
        | .ok reranked =>
            let kept := if reranked ≠ [] then reranked else docs
            .ok (serializeDocuments true kept, kept)
      else .ok (serializeDocuments true docs, docs)

/-! ### Thread deletion (src/src/api/routes/chat.py, `delete_thread`) -/

/-- One row of a LangGraph checkpoint table, keyed by `thread_id` (the other
columns are opaque payload). -/
structure CheckpointRow where
  thread_id : String
  payload : String
deriving DecidableEq

/-- The four LangGraph checkpoint tables of the relational store. -/
structure CheckpointDb where
  checkpoint_writes : List CheckpointRow
  checkpoint_blobs : List CheckpointRow
  checkpoints : List CheckpointRow
  checkpoint_migrations : List CheckpointRow
deriving DecidableEq

/-- `DELETE FROM «table» WHERE thread_id = %s`: the remaining rows and the
statement's rowcount. -/
def sqlDeleteByThread (rows : List CheckpointRow) (tid : String) :
    List CheckpointRow × Nat :=
  (rows.filter (fun r => r.thread_id != tid),
   (rows.filter (fun r => r.thread_id == tid)).length)

/-- `delete_thread` (src/src/api/routes/chat.py lines 619-685): delete the
thread's rows from `checkpoint_writes`, `checkpoint_blobs` and `checkpoints`
(in that dependency order; `checkpoint_migrations` is left alone), commit, and
report the three rowcounts. -/
def deleteThread (db : CheckpointDb) (tid : String) :
    CheckpointDb × Nat × Nat × Nat :=
  let w := sqlDeleteByThread db.checkpoint_writes tid
  let b := sqlDeleteByThread db.checkpoint_blobs tid
  let c := sqlDeleteByThread db.checkpoints tid
  ({ checkpoint_writes := w.1, checkpoint_blobs := b.1, checkpoints := c.1,
     checkpoint_migrations := db.checkpoint_migrations },
   w.2, b.2, c.2)

/-- Sample event used by concrete witnesses. -/
def sampleMsg : StreamMessage :=
  ⟨"thread_123", "query_or_respond", "output", "completed", 1705740000,
    PyVal.dict [("key", PyVal.str "value")], some 100⟩

/-- Sample configuration used by concrete witnesses: durable log enabled, TTL
3600 s, retained length 2. -/
def sampleCfg : Settings :=
  ⟨true, 3600, 2, 300, false, Option.none, Option.none, Option.none, false, 4⟩

/-- Sample per-thread Redis state used by concrete witnesses: two retained
entries, next auto id 3. -/
def sampleState : RedisThreadState :=
  ⟨⟨3, [⟨1, sampleMsg⟩, ⟨2, sampleMsg⟩], Option.none⟩, []⟩

/-! ### Theorems -/

/-- Events produced for a single stream chunk are never terminal: their
message types are `token`, `output` or `custom`. -/
theorem chunkEvents_no_terminal (tid : String) (now e : Int) (c : StreamChunk) :
    (chunkEvents tid now e c).filter StreamMessage.isTerminal = [] := by
  cases c with
  | messages node tok chunk metadata =>
      by_cases h : (node = "query_or_respond" ∨ node = "generate") ∧ tok ≠ "" <;>
        simp [chunkEvents, h, StreamMessage.isTerminal, publishNodeOutput]
  | updates deltas =>
      induction deltas with
      | nil => simp [chunkEvents]
      | cons d rest ih =>
          simpa [chunkEvents, StreamMessage.isTerminal, publishNodeOutput]
            using ih
  | custom d => simp [chunkEvents, StreamMessage.isTerminal]

/-- No terminal event is published while chunks are being processed. -/
theorem turnEvents_no_terminal (tid : String) (now : Int)
    (l : List (StreamChunk × Int)) :
    (turnEvents tid now l).filter StreamMessage.isTerminal = [] := by
  induction l with
  | nil => rfl
  | cons ce rest ih =>
      simp [turnEvents, List.filter_append, chunkEvents_no_terminal, ih]

/-- Claim C3: for every streaming turn, exactly one terminal event is emitted —
a `complete` event on normal completion, an `error` event on failure or
timeout — except a caller-cancelled turn, which emits none; and the timeout
terminal event carries the classification `timeout` together with the
configured budget value. -/
theorem C3_exactly_one_terminal_event (cfg : Settings) (thread_id : String)
    (now totalMs : Int) (chunks : List (StreamChunk × Int))
    (outcome : TurnOutcome) :
    ((streamWorkflowToRedis cfg thread_id now totalMs chunks outcome).filter
        StreamMessage.isTerminal).length =
      (match outcome with
       | .cancelled _ => 0
       | _ => 1) ∧
    (match outcome with
     | .timedOut _ =>
         ∃ e, (streamWorkflowToRedis cfg thread_id now totalMs chunks
                  outcome).filter StreamMessage.isTerminal = [e] ∧
           e.message_type = "error" ∧ e.status = "failed" ∧
           e.data.look "error_type" = some (PyVal.str "timeout") ∧
           e.data.look "timeout_seconds" =
             some (PyVal.int cfg.workflow_timeout_seconds)
     | _ => True) := by
  cases outcome <;>
    simp [streamWorkflowToRedis, List.filter_append, turnEvents_no_terminal,
      publishWorkflowComplete, publishWorkflowError, StreamMessage.isTerminal,
      PyVal.look]
  exact ⟨rfl, rfl⟩

/-- Claim C10: `StreamMessage.to_json` is total and never raises: it always
produces a JSON object keeping `thread_id`, `node_name` and `message_type`;
non-serializable payload values go through the default hook (LangChain messages
become dicts, other objects become strings); and when payload serialization
still fails, the object is the fallback with `status` set to `"error"`
(otherwise `status` and the serialized payload are kept). -/
theorem C10_to_json_total (m : StreamMessage) (now : Int) :
    (m.toJson now).field "thread_id" = some (.str m.thread_id) ∧
    (m.toJson now).field "node_name" = some (.str m.node_name) ∧
    (m.toJson now).field "message_type" = some (.str m.message_type) ∧
    (m.toJson now).field "data" = jsonDefault m.data ∧
    (m.toJson now).field "status" =
      some (.str (if (jsonDefault m.data).isSome then m.status else "error")) ∧
    (∀ t c, jsonDefault (PyVal.baseMessage t c) =
      some (.obj [("type", .str t), ("data", .obj [("content", .str c)])])) ∧
    (∀ r, jsonDefault (PyVal.obj r) = some (.str r)) := by
  cases h : jsonDefault m.data <;> simp only [StreamMessage.toJson, h] <;>
    exact ⟨rfl, rfl, rfl, rfl, rfl, fun t c => rfl, fun r => rfl⟩

/-- Claim C9: thread deletion removes every checkpoint row of the given
thread from the three checkpoint tables (leaving the migrations table alone),
and a second deletion of the same thread — i.e. deletion of a thread that no
longer exists — completes, changes nothing and reports zero rows removed. -/
theorem C9_delete_thread (db : CheckpointDb) (tid : String) :
    ((deleteThread db tid).1.checkpoint_writes.filter
        (fun r => r.thread_id == tid)) = [] ∧
    ((deleteThread db tid).1.checkpoint_blobs.filter
        (fun r => r.thread_id == tid)) = [] ∧
    ((deleteThread db tid).1.checkpoints.filter
        (fun r => r.thread_id == tid)) = [] ∧
    (deleteThread db tid).1.checkpoint_migrations = db.checkpoint_migrations ∧
    deleteThread (deleteThread db tid).1 tid =
      ((deleteThread db tid).1, 0, 0, 0) := by
  simp [deleteThread, sqlDeleteByThread, List.filter_filter]

/-- Claim C1: with the durable log enabled, publishing a Stream Event appends
it to the per-thread log under the next (strictly increasing) message id,
trims the log to the configured maximum retained length keeping the most
recent entries, refreshes the retention TTL on the log key, and — 
independently of the durable log, whatever the configuration — broadcasts the
serialized event once on the thread's channel. -/
theorem C1_publish_message (cfg : Settings) (st : RedisThreadState)
    (m : StreamMessage) (now : Int)
    (hen : cfg.redis_stream_enabled = true)
    (hmax : 0 < cfg.stream_max_length)
    (hwf : ∀ e ∈ st.log.entries, e.id < st.log.nextId) :
    ((publishMessage cfg st m now).log.nextId = st.log.nextId + 1) ∧
    ((⟨st.log.nextId, m⟩ : StreamEntry) ∈ (publishMessage cfg st m now).log.entries) ∧
    ((publishMessage cfg st m now).log.entries.length =
      min (st.log.entries.length + 1) cfg.stream_max_length) ∧
    ((publishMessage cfg st m now).log.entries <:+
      st.log.entries ++ [⟨st.log.nextId, m⟩]) ∧
    (∀ e ∈ (publishMessage cfg st m now).log.entries,
      e.id < (publishMessage cfg st m now).log.nextId) ∧
    ((publishMessage cfg st m now).log.ttl = some cfg.stream_ttl_seconds) ∧
    (∀ cfg2 : Settings, (publishMessage cfg2 st m now).broadcasts =
      st.broadcasts ++ [(channelName m.thread_id m.node_name m.message_type,
        m.toJson now)]) := by
  have hlog : (publishMessage cfg st m now).log =
      { nextId := st.log.nextId + 1,
        entries := (st.log.entries ++ [StreamEntry.mk st.log.nextId m]).drop
          ((st.log.entries ++ [StreamEntry.mk st.log.nextId m]).length -
            cfg.stream_max_length),
        ttl := some cfg.stream_ttl_seconds } := by
    simp [publishMessage, publishToStream, hen, xadd, xtrim, expire]
  have hdroplen : (st.log.entries ++ [StreamEntry.mk st.log.nextId m]).length -
      cfg.stream_max_length ≤ st.log.entries.length := by
    simp only [List.length_append, List.length_cons, List.length_nil]
    omega
  refine ⟨by rw [hlog], ?_, ?_, ?_, ?_, by rw [hlog], fun cfg2 => rfl⟩
  · rw [hlog]
    simp only [List.drop_append_of_le_length hdroplen]
    exact List.mem_append_right _ (List.mem_singleton.mpr rfl)
  · rw [hlog]
    simp only [List.length_drop, List.length_append, List.length_cons,
      List.length_nil]
    omega
  · rw [hlog]
    exact List.drop_suffix _ _
  · intro e he
    rw [hlog] at he ⊢
    rcases List.mem_append.mp (List.mem_of_mem_drop he) with h1 | h1
    · exact Nat.lt_succ_of_lt (hwf e h1)
    · rw [List.mem_singleton.mp h1]
      exact Nat.lt_succ_self _

/-- Witness for C1 at concrete inputs: log enabled, retained length 2, two
prior entries with ids 1 and 2. -/
theorem C1_publish_message_witness :
    ((publishMessage sampleCfg sampleState sampleMsg 9).log.nextId =
      sampleState.log.nextId + 1) ∧
    ((⟨sampleState.log.nextId, sampleMsg⟩ : StreamEntry) ∈
      (publishMessage sampleCfg sampleState sampleMsg 9).log.entries) ∧
    ((publishMessage sampleCfg sampleState sampleMsg 9).log.entries.length =
      min (sampleState.log.entries.length + 1) sampleCfg.stream_max_length) ∧
    ((publishMessage sampleCfg sampleState sampleMsg 9).log.entries <:+
      sampleState.log.entries ++ [⟨sampleState.log.nextId, sampleMsg⟩]) ∧
    (∀ e ∈ (publishMessage sampleCfg sampleState sampleMsg 9).log.entries,
      e.id < (publishMessage sampleCfg sampleState sampleMsg 9).log.nextId) ∧
    ((publishMessage sampleCfg sampleState sampleMsg 9).log.ttl =
      some sampleCfg.stream_ttl_seconds) ∧
    (∀ cfg2 : Settings, (publishMessage cfg2 sampleState sampleMsg 9).broadcasts =
      sampleState.broadcasts ++
        [(channelName sampleMsg.thread_id sampleMsg.node_name
            sampleMsg.message_type, sampleMsg.toJson 9)]) :=
  C1_publish_message sampleCfg sampleState sampleMsg 9 rfl (by decide)
    (by decide)

/-- Every id in a strictly increasing log is at most the id that
`_send_stream_history` reports as last replayed. -/
theorem id_le_sendStreamHistory {l : List StreamEntry}
    (hs : l.Pairwise (fun a b => a.id < b.id)) {x : StreamEntry} (hx : x ∈ l) :
    x.id ≤ (sendStreamHistory l).2 := by
  induction l using List.reverseRecOn with
  | nil => cases hx
  | append_singleton xs a ih =>
      have hlast : (sendStreamHistory (xs ++ [a])).2 = a.id := by
        simp [sendStreamHistory]
      rw [hlast]
      rcases List.mem_append.mp hx with h1 | h1
      · have := (List.pairwise_append.mp hs).2.2 x h1 a (List.mem_singleton.mpr rfl)
        omega
      · rw [List.mem_singleton.mp h1]

/-- In a strictly increasing log that grows from `initial` to
`initial ++ grown` (all ids positive), every grown entry's id is strictly
greater than the last id replayed from `initial`. -/
theorem sendStreamHistory_lt_grown {initial grown : List StreamEntry}
    (hs : (initial ++ grown).Pairwise (fun a b => a.id < b.id))
    (hpos : ∀ e ∈ initial ++ grown, 0 < e.id) {g : StreamEntry}
    (hg : g ∈ grown) : (sendStreamHistory initial).2 < g.id := by
  induction initial using List.reverseRecOn with
  | nil =>
      simpa [sendStreamHistory] using hpos g (List.mem_append_right _ hg)
  | append_singleton xs a ih =>
      have hlast : (sendStreamHistory (xs ++ [a])).2 = a.id := by
        simp [sendStreamHistory]
      rw [hlast]
      have := (List.pairwise_append.mp hs).2.2 a
        (List.mem_append_right _ (List.mem_singleton.mpr rfl)) g hg
      simpa using this

/-- Claim C2: on a subscription without an offset the entire retained log is
replayed oldest to newest marked as historical, and afterwards exactly the
events that arrive later — all with ids strictly greater than the last
replayed id — are delivered; on a subscription with offset X replay is skipped
and every delivered event has id strictly greater than X. -/
theorem C2_subscribe_replay (initial grown : List StreamEntry)
    (hs : (initial ++ grown).Pairwise (fun a b => a.id < b.id))
    (hpos : ∀ e ∈ initial ++ grown, 0 < e.id) :
    websocketStream initial grown Option.none =
      initial.map (fun e => ⟨e.id, true, e.msg⟩) ++
        grown.map (fun e => ⟨e.id, false, e.msg⟩) ∧
    (∀ X : Nat, ∀ f ∈ websocketStream initial grown (some X),
      X < f.message_id ∧ f.is_history = false) := by
  constructor
  · have hfilter : (initial ++ grown).filter
        (fun e => (sendStreamHistory initial).2 < e.id) = grown := by
      rw [List.filter_append]
      have h1 : initial.filter
          (fun e => (sendStreamHistory initial).2 < e.id) = [] := by
        rw [List.filter_eq_nil_iff]
        intro e he
        have hle := id_le_sendStreamHistory
          (List.pairwise_append.mp hs).1 he
        simpa using hle
      have h2 : grown.filter
          (fun e => (sendStreamHistory initial).2 < e.id) = grown := by
        rw [List.filter_eq_self]
        intro g hg
        simpa using sendStreamHistory_lt_grown hs hpos hg
      rw [h1, h2, List.nil_append]
    have h0 : websocketStream initial grown Option.none =
        (sendStreamHistory initial).1 ++
          ((initial ++ grown).filter
            (fun e => (sendStreamHistory initial).2 < e.id)).map
            (fun e => (⟨e.id, false, e.msg⟩ : WsFrame)) := rfl
    rw [h0, hfilter]
    rfl
  · intro X f hf
    simp only [websocketStream, streamNewMessages] at hf
    rcases List.mem_map.mp hf with ⟨e, he, rfl⟩
    exact ⟨by simpa using List.of_mem_filter he, rfl⟩

/-- Witness for C2 at a concrete log: two retained entries (ids 1, 2) and one
entry (id 3) published after the subscription began. -/
theorem C2_subscribe_replay_witness :
    websocketStream [⟨1, sampleMsg⟩, ⟨2, sampleMsg⟩] [⟨3, sampleMsg⟩]
        Option.none =
      ([⟨1, sampleMsg⟩, ⟨2, sampleMsg⟩] : List StreamEntry).map
          (fun e => ⟨e.id, true, e.msg⟩) ++
        ([⟨3, sampleMsg⟩] : List StreamEntry).map
          (fun e => ⟨e.id, false, e.msg⟩) ∧
    (∀ X : Nat, ∀ f ∈ websocketStream [⟨1, sampleMsg⟩, ⟨2, sampleMsg⟩]
        [⟨3, sampleMsg⟩] (some X), X < f.message_id ∧ f.is_history = false) :=
  C2_subscribe_replay [⟨1, sampleMsg⟩, ⟨2, sampleMsg⟩] [⟨3, sampleMsg⟩]
    (by decide) (by decide)

/-- The reversed-iteration loop of `_extract_retrieved_context` skips every
non-tool message and stops at the first tool message. -/
theorem extractRetrievedContextGo_append (a : List Msg) (n c : String)
    (b : List Msg) (ha : ∀ m ∈ a, m.isTool = false) :
    extractRetrievedContextGo (a ++ Msg.tool n c :: b) = c := by
  induction a with
  | nil => rfl
  | cons m t ih =>
      have hm : m.isTool = false := ha m (List.mem_cons_self m t)
      have ht : ∀ x ∈ t, x.isTool = false :=
        fun x hx => ha x (List.mem_cons_of_mem m hx)
      cases m with
      | human _ => simpa [extractRetrievedContextGo] using ih ht
      | ai _ _ => simpa [extractRetrievedContextGo] using ih ht
      | system _ => simpa [extractRetrievedContextGo] using ih ht
      | tool _ _ => simp [Msg.isTool] at hm

/-- `_extract_retrieved_context` returns the content of the most recent tool
message: every message after it is ignored. -/
theorem extractRetrievedContext_latest (pre : List Msg) (n c : String)
    (post : List Msg) (hpost : ∀ m ∈ post, m.isTool = false) :
    extractRetrievedContext (pre ++ Msg.tool n c :: post) = c := by
  unfold extractRetrievedContext
  have hrev : (pre ++ Msg.tool n c :: post).reverse =
      post.reverse ++ Msg.tool n c :: pre.reverse := by
    simp
  rw [hrev]
  exact extractRetrievedContextGo_append post.reverse n c pre.reverse
    (fun m hm => hpost m (List.mem_reverse.mp hm))

/-- Counterexample to claim C5: two conversation histories that agree on the
latest tool result but differ in the earlier one yield the *same* GENERATING
model call, so that call cannot carry all tool results; and the call differs
from the spec's input, the history extended with all tool results. -/
theorem C5_counterexample :
    (generateModelCall
        [Msg.human "q",
         Msg.ai "" [⟨"retrieve_context", "q"⟩, ⟨"search_projects", "q"⟩],
         Msg.tool "retrieve_context" "r1", Msg.tool "search_projects" "r2"] =
      generateModelCall
        [Msg.human "q",
         Msg.ai "" [⟨"retrieve_context", "q"⟩, ⟨"search_projects", "q"⟩],
         Msg.tool "retrieve_context" "changed", Msg.tool "search_projects" "r2"]) ∧
    ([Msg.human "q",
      Msg.ai "" [⟨"retrieve_context", "q"⟩, ⟨"search_projects", "q"⟩],
      Msg.tool "retrieve_context" "r1", Msg.tool "search_projects" "r2"] ≠
     [Msg.human "q",
      Msg.ai "" [⟨"retrieve_context", "q"⟩, ⟨"search_projects", "q"⟩],
      Msg.tool "retrieve_context" "changed", Msg.tool "search_projects" "r2"]) ∧
    generateModelCall
        [Msg.human "q",
         Msg.ai "" [⟨"retrieve_context", "q"⟩, ⟨"search_projects", "q"⟩],
         Msg.tool "retrieve_context" "r1", Msg.tool "search_projects" "r2"] ≠
      generateModelCallSpec
        [Msg.human "q",
         Msg.ai "" [⟨"retrieve_context", "q"⟩, ⟨"search_projects", "q"⟩],
         Msg.tool "retrieve_context" "r1", Msg.tool "search_projects" "r2"] := by
  refine ⟨rfl, by decide, fun h => ?_⟩
  have hlen := congrArg (fun mc => mc.input.length) h
  simp [generateModelCall, generateModelCallSpec] at hlen

/-- Claim C5 amended: in GENERATING the model is invoked with no tools bound on
a single synthesized prompt built from the most recent user question and the
most recent tool result only; earlier tool results are not part of the model
input. -/
theorem C5_generate_latest_tool_only (pre : List Msg) (n c : String)
    (post : List Msg) (hpost : ∀ m ∈ post, m.isTool = false) :
    (generateModelCall (pre ++ Msg.tool n c :: post)).bound_tools = [] ∧
    (generateModelCall (pre ++ Msg.tool n c :: post)).input =
      [Msg.human (generateAnswerPromptFormat
        (orDefault (extractUserQuestion (pre ++ Msg.tool n c :: post))
          "No question provided.")
        (orDefault c "No supporting documents were retrieved."))] := by
  refine ⟨rfl, ?_⟩
  simp only [generateModelCall,
    extractRetrievedContext_latest pre n c post hpost]

/-- Witness for the amended C5 at a concrete history with two tool results:
the GENERATING prompt is built from the latest one. -/
theorem C5_generate_latest_tool_only_witness :
    (generateModelCall
        ([Msg.human "q", Msg.tool "retrieve_context" "r1"] ++
          Msg.tool "search_projects" "r2" :: [])).bound_tools = [] ∧
    (generateModelCall
        ([Msg.human "q", Msg.tool "retrieve_context" "r1"] ++
          Msg.tool "search_projects" "r2" :: [])).input =
      [Msg.human (generateAnswerPromptFormat
        (orDefault (extractUserQuestion
          ([Msg.human "q", Msg.tool "retrieve_context" "r1"] ++
            Msg.tool "search_projects" "r2" :: [])) "No question provided.")
        (orDefault "r2" "No supporting documents were retrieved."))] :=
  C5_generate_latest_tool_only [Msg.human "q", Msg.tool "retrieve_context" "r1"]
    "search_projects" "r2" [] (by decide)

/-- Claim C6: when the DECIDING model response carries zero tool requests the
turn goes straight to DONE: the final state is the history plus that single
assistant message (whose content is the final answer), exactly one model call
was made, and no tool-result message was appended. -/
theorem C6_zero_tool_requests_single_call (cfg : Settings)
    (llm : List Msg → List String → String × List ToolCall)
    (runTool : ToolCall → String) (now : String) (messages : List Msg)
    (h : (llm (prependSystemPrompt now messages) (queryOrRespondTools cfg)).2 =
      []) :
    runWorkflow cfg llm runTool now messages =
      { messages := messages ++
          [Msg.ai (llm (prependSystemPrompt now messages)
            (queryOrRespondTools cfg)).1 []],
        modelCalls :=
          [⟨prependSystemPrompt now messages, queryOrRespondTools cfg⟩] } ∧
    (runWorkflow cfg llm runTool now messages).modelCalls.length = 1 ∧
    (runWorkflow cfg llm runTool now messages).messages.filter Msg.isTool =
      messages.filter Msg.isTool := by
  have hrun : runWorkflow cfg llm runTool now messages =
      { messages := messages ++
          [Msg.ai (llm (prependSystemPrompt now messages)
            (queryOrRespondTools cfg)).1 []],
        modelCalls :=
          [⟨prependSystemPrompt now messages, queryOrRespondTools cfg⟩] } := by
    unfold runWorkflow
    simp [h]
  refine ⟨hrun, by rw [hrun]; rfl, ?_⟩
  rw [hrun]
  simp only [List.filter_append, List.filter_cons, List.filter_nil, Msg.isTool]
  simp

/-- Witness for C6: a model that answers "What is RAG?" directly, with no tool
requests. -/
theorem C6_zero_tool_requests_single_call_witness :
    runWorkflow sampleCfg (fun _ _ => ("RAG is retrieval-augmented generation.", []))
        (fun _ => "") "2026-01-01T00:00:00+00:00" [Msg.human "What is RAG?"] =
      { messages := [Msg.human "What is RAG?"] ++
          [Msg.ai ((fun (_ : List Msg) (_ : List String) =>
              ("RAG is retrieval-augmented generation.", ([] : List ToolCall)))
            (prependSystemPrompt "2026-01-01T00:00:00+00:00"
              [Msg.human "What is RAG?"]) (queryOrRespondTools sampleCfg)).1 []],
        modelCalls :=
          [⟨prependSystemPrompt "2026-01-01T00:00:00+00:00"
              [Msg.human "What is RAG?"], queryOrRespondTools sampleCfg⟩] } ∧
    (runWorkflow sampleCfg
        (fun _ _ => ("RAG is retrieval-augmented generation.", []))
        (fun _ => "") "2026-01-01T00:00:00+00:00"
        [Msg.human "What is RAG?"]).modelCalls.length = 1 ∧
    (runWorkflow sampleCfg
        (fun _ _ => ("RAG is retrieval-augmented generation.", []))
        (fun _ => "") "2026-01-01T00:00:00+00:00"
        [Msg.human "What is RAG?"]).messages.filter Msg.isTool =
      ([Msg.human "What is RAG?"] : List Msg).filter Msg.isTool :=
  C6_zero_tool_requests_single_call sampleCfg
    (fun _ _ => ("RAG is retrieval-augmented generation.", []))
    (fun _ => "") "2026-01-01T00:00:00+00:00" [Msg.human "What is RAG?"] rfl

/-- Claim C7 (code-bug evidence): the streaming endpoint forwards the
`enable_websearch` toggle into the per-call config, but `query_or_respond`
never consults it: the bound tools are `retrieve_context` plus
`search_projects` when project search is enabled — `web_search` is never among
them, whatever the toggle. -/
theorem C7_websearch_toggle_never_bound (cfg : Settings) (req : ChatRequest)
    (h : req.enable_websearch = true) :
    (chatStreamConfigurable req).lookup "enable_websearch" =
      some (CfgVal.b true) ∧
    "web_search" ∉ queryOrRespondTools cfg ∧
    queryOrRespondTools cfg =
      "retrieve_context" ::
        (if cfg.project_search_enabled then ["search_projects"] else []) := by
  refine ⟨?_, ?_, rfl⟩
  · rcases req with ⟨tid, uid, msg0, cm, docs, ws⟩
    have hws : ws = true := h
    subst hws
    cases uid <;> cases cm <;> rfl
  · cases hps : cfg.project_search_enabled <;>
      simp [queryOrRespondTools, hps]

/-- Witness for C7: a request with the web-search toggle set still gets only
the two retrieval tools bound. -/
theorem C7_websearch_toggle_never_bound_witness :
    (chatStreamConfigurable
        ⟨"thread_123", Option.none, "最近的AI新闻", Option.none, [], true⟩).lookup
      "enable_websearch" = some (CfgVal.b true) ∧
    "web_search" ∉ queryOrRespondTools sampleCfg ∧
    queryOrRespondTools sampleCfg =
      "retrieve_context" ::
        (if sampleCfg.project_search_enabled then ["search_projects"]
         else []) :=
  C7_websearch_toggle_never_bound sampleCfg
    ⟨"thread_123", Option.none, "最近的AI新闻", Option.none, [], true⟩ rfl

/-- Claim C8: on an authorization-expired (401) response to the first search
call the client clears its cached token, reacquires exactly once, retries the
call exactly once, and surfaces the retry's failure — with no second retry
even when the retry is rejected again. -/
theorem C8_auth_expired_single_retry (t : String) (tokA tokB : Option String)
    (resp2 : HttpResponse) :
    (clientSearch (some t) tokA tokB (HttpResponse.status 401)
        resp2).tokenAcquisitions = 1 ∧
    (clientSearch (some t) tokA tokB (HttpResponse.status 401)
        resp2).finalTokenCache = tokB ∧
    (clientSearch (some t) tokA tokB (HttpResponse.status 401)
        resp2).getCalls =
      (match tokB with | some _ => 2 | Option.none => 1) ∧
    (clientSearch (some t) tokA tokB (HttpResponse.status 401)
        resp2).outcome =
      (match tokB, resp2 with
       | Option.none, _ => .error .tokenAcq
       | some _, .ok body => .ok body
       | some _, .status c2 => .error (.httpStatus c2)
       | some _, .netError msg => .error (.net msg)) := by
  cases tokB <;> cases resp2 <;>
    simp [clientSearch, searchWithToken]

/-- Each Chinese display string is non-empty, and concatenations with a
non-empty head stay non-empty. -/
theorem length_pos_append_left (a b : String) (h : 0 < a.length) :
    0 < (a ++ b).length := by
  rw [String.length_append]
  omega

/-- Claim C4 corrected: the project-search capability never raises for
expected failure modes (feature disabled, missing configuration, upstream
timeout, upstream HTTP error, empty results) and always returns a non-empty
human-readable string (text only — this tool has no artifact list), while the
document-retrieval capability on empty results returns an *empty* display
text with an empty artifact list. -/
theorem C4_failure_modes_humanized (cfg : Settings)
    (outcome : UpstreamOutcome) (query : String)
    (ro : PyResult (List Document)) :
    0 < (searchProjectsImpl cfg outcome query).length ∧
    retrieveContext cfg (PyResult.ok []) ro = Except.ok ("", []) := by
  constructor
  · unfold searchProjectsImpl
    split_ifs with h1 h2 h3 <;> try decide
    cases outcome with
    | ok body =>
        rcases body with ⟨items, total⟩
        cases items with
        | nil =>
            refine length_pos_append_left _ _ (length_pos_append_left _ _ ?_)
            decide
        | cons p rest =>
            refine length_pos_append_left _ _
              (length_pos_append_left _ _ (length_pos_append_left _ _ ?_))
            decide
    | timeout =>
        show 0 < ("项目搜索服务响应超时" : String).length
        decide
    | httpError _ =>
        show 0 < ("项目搜索服务暂时不可用" : String).length
        decide
    | otherError _ =>
        show 0 < ("项目搜索失败，请稍后重试" : String).length
        decide
  · simp [retrieveContext, show serializeDocuments true [] = "" from rfl]

/-- Counterexample to claim C4 as stated: the document-retrieval capability
violates it on two expected inputs — empty results yield an empty display
text, and a rerank failure raises out of the tool. -/
theorem C4_counterexample :
    retrieveContext
        ⟨false, 3600, 1000, 300, false, Option.none, Option.none, Option.none,
          false, 4⟩ (PyResult.ok []) (PyResult.ok []) =
      Except.ok ("", []) ∧
    retrieveContext
        ⟨false, 3600, 1000, 300, false, Option.none, Option.none, Option.none,
          true, 4⟩
        (PyResult.ok [⟨"metadata", "content", Option.none⟩])
        (PyResult.raises "connection refused") =
      Except.error "Rerank failed: connection refused" := by
  exact ⟨rfl, rfl⟩

end RagDemo
